import Mathlib

/-!
Verification development for the `mcp_massive` tool-call gateway
(`src/mcp_massive/server.py` and its response transformer `json_to_csv`
from `mcp_massive.formatters`).

The server module is embedded directly from the source: every one of its
53 tool coroutines has the shape

    try:
        results = massive_client.<endpoint>(〈marshalled arguments〉, raw=True)
        return json_to_csv(results.data.decode("utf-8"))
    except Exception as e:
        return f"Error: 〈e〉"

so the wrapper is modelled once (`runToolOperation`), parameterised by the
outcomes of the two external stages (upstream client call, UTF-8 decode).

The `formatters` module itself is not part of the sources available here,
so the JSON-to-CSV transformer is modelled from the specification
(sections 3, 4 and 7 of the design document): a JSON sum type, an envelope
classifier, a two-pass flattener and an RFC4180-style renderer.
-/

namespace McpMassive

/-- Modelled from the spec: the decoded JSON value (`formatters` is not in
the sources). Spec section 9 asks for a tagged sum with variants Null,
Bool, Number, String, Array, Object; object fields keep insertion order;
a number keeps its source spelling so that rendering introduces no
floating-point noise (spec section 3, Cell Value). -/
inductive Json where
  | null : Json
  | bool (b : Bool) : Json
  | num (s : String) : Json
  | str (s : String) : Json
  | arr (xs : List Json) : Json
  | obj (fs : List (String × Json)) : Json
deriving Repr

/-- A JSON scalar in the sense of the spec: null, boolean, number or string. -/
def Json.isScalar : Json → Bool
  | .null => true
  | .bool _ => true
  | .num _ => true
  | .str _ => true
  | .arr _ => false
  | .obj _ => false

/-- Whether a JSON value is an object (mapping). -/
def Json.isObj : Json → Bool
  | .obj _ => true
  | _ => false

/-- Modelled from the spec: Cell Value rendering of a scalar (spec
section 3): booleans as `true`/`false`, null as the empty string, numbers
and strings as their text. Non-scalars never reach this function. -/
def Json.renderScalar : Json → String
  | .null => ""
  | .bool true => "true"
  | .bool false => "false"
  | .num s => s
  | .str s => s
  | .arr _ => ""
  | .obj _ => ""

/-- Modelled from the spec: a Flattened Field Path extends a parent path
with a nested key using the `.` separator (spec section 3); at the top of
a record the path is the field name itself. -/
def joinPath (p k : String) : String :=
  if p = "" then k else p ++ "." ++ k

/-- Modelled from the spec: the error taxonomy of spec section 7:
`ParseError` (input is not valid JSON) and `ShapeError` (valid JSON that
is not convertible to a table). -/
inductive ConvError where
  | parseError (msg : String)
  | shapeError (msg : String)
deriving Repr, DecidableEq

/-- The message carried by a conversion error (what Python's `str(e)`
would show for the raised exception). -/
def ConvError.message : ConvError → String
  | .parseError m => m
  | .shapeError m => m

mutual

/-- Modelled from the spec: flatten one JSON value sitting at path `p`
into an ordered list of (path, cell) pairs (spec section 4.2): a scalar
or null leaf registers column `p`; an object recurses through its fields
extending the path; an array of scalars joins its elements with `;` under
column `p`; an array with an object element recurses per index under
`p.0`, `p.1`, …; any other array shape is an unsupported ambiguity and
fails with `ShapeError` (spec section 7). -/
def flattenValue (p : String) : Json → Except ConvError (List (String × String))
  | .null => .ok [(p, "")]
  | .bool b => .ok [(p, Json.renderScalar (.bool b))]
  | .num s => .ok [(p, s)]
  | .str s => .ok [(p, s)]
  | .obj fs => flattenFields p fs
  | .arr xs =>
      if xs.all Json.isScalar then
        .ok [(p, String.intercalate ";" (xs.map Json.renderScalar))]
      else if xs.any Json.isObj then
        flattenElems p 0 xs
      else
        .error (.shapeError "unsupported mixed-type array")

/-- Modelled from the spec: flatten the fields of an object in insertion
order, depth first (spec section 4.2, step 1), extending the parent path
with each key. -/
def flattenFields (p : String) : List (String × Json) → Except ConvError (List (String × String))
  | [] => .ok []
  | (k, v) :: rest => do
      let c ← flattenValue (joinPath p k) v
      let r ← flattenFields p rest
      .ok (c ++ r)

/-- Modelled from the spec: flatten the elements of an array that
contains objects, element `i` being treated as nested field `p.i`
(spec section 4.2, step 4). -/
def flattenElems (p : String) (i : Nat) : List Json → Except ConvError (List (String × String))
  | [] => .ok []
  | x :: rest => do
      let c ← flattenValue (joinPath p (toString i)) x
      let r ← flattenElems p (i + 1) rest
      .ok (c ++ r)

end

/-- Modelled from the spec: a record of the Record list must be a mapping
(spec section 4.1); anything else fails the classifier. -/
def recordFields : Json → Except ConvError (List (String × Json))
  | .obj fs => .ok fs
  | _ => .error (.shapeError "non-object element in record sequence")

/-- Extract the fields of every element of a record sequence, failing on
the first non-object element. -/
def mapRecords : List Json → Except ConvError (List (List (String × Json)))
  | [] => .ok []
  | x :: rest => do
      let r ← recordFields x
      let rs ← mapRecords rest
      .ok (r :: rs)

/-- Modelled from the spec: locate the sequence-valued field
conventionally used for result lists — the field named `results` holding
an array (spec sections 3 and 4.1). -/
def findResultsList : List (String × Json) → Option (List Json)
  | [] => none
  | (k, Json.arr xs) :: rest => if k = "results" then some xs else findResultsList rest
  | _ :: rest => findResultsList rest

/-- Modelled from the spec: the envelope classifier of spec section 4.1.
A sequence is a Bare sequence whose elements must all be mappings; a
mapping with a `results` sequence is a Collection envelope whose record
list is that sequence; a mapping without one is a Single-record envelope;
a scalar or null has no tabular structure. -/
def extractRecords : Json → Except ConvError (List (List (String × Json)))
  | .arr xs => mapRecords xs
  | .obj fs =>
      match findResultsList fs with
      | some rs => mapRecords rs
      | none => .ok [fs]
  | _ => .error (.shapeError "no tabular structure in response")

/-- Append a column if it has not been discovered yet (insertion order of
first discovery, spec section 3, Column Set). -/
def insertNew (cols : List String) (c : String) : List String :=
  if cols.contains c then cols else cols ++ [c]

/-- Accumulate the columns discovered in one record, in order. -/
def collectCols (cols : List String) : List (String × String) → List String
  | [] => cols
  | (c, _) :: rest => collectCols (insertNew cols c) rest

/-- Modelled from the spec: the Column Set — the ordered, de-duplicated
union of all flattened field paths across every record (spec section 3),
accumulated record by record (spec section 4.2, step 5). -/
def columnSet (cellss : List (List (String × String))) : List String :=
  cellss.foldl collectCols []

/-- The cell of a record at one column: its rendered value, or the empty
string when the record lacks that column (spec section 3, invariants). -/
def lookupCell (cells : List (String × String)) (c : String) : String :=
  match cells.lookup c with
  | some v => v
  | none => ""

/-- One CSV data row: the record's cell at every column of the Column
Set, in header order. -/
def rowFor (cols : List String) (cells : List (String × String)) : List String :=
  cols.map (lookupCell cells)

/-- Flatten one record (its per-field walk starts with the empty parent
path, so top-level keys are their own paths). -/
def flattenRecord (fs : List (String × Json)) : Except ConvError (List (String × String)) :=
  flattenFields "" fs

/-- Flatten every record of the Record list (first pass of the two-pass
strategy, spec section 4.2, step 5). -/
def flattenRecords : List (List (String × Json)) → Except ConvError (List (List (String × String)))
  | [] => .ok []
  | r :: rest => do
      let c ← flattenRecord r
      let cs ← flattenRecords rest
      .ok (c :: cs)

/-- Classify the envelope and flatten all its records. -/
def recordCells (j : Json) : Except ConvError (List (List (String × String))) := do
  let recs ← extractRecords j
  flattenRecords recs

/-- The Column Set of a whole document. -/
def csvColumns (j : Json) : Except ConvError (List String) := do
  let cellss ← recordCells j
  .ok (columnSet cellss)

/-- Modelled from the spec: the rows of the CSV table — the header row
first, exactly once, then one data row per record (spec section 3,
invariants; section 4.3). -/
def csvRows (j : Json) : Except ConvError (List (List String)) := do
  let cellss ← recordCells j
  let cols := columnSet cellss
  .ok (cols :: cellss.map (rowFor cols))

/-- Whether a CSV field must be quoted: it contains a comma, a quote or a
newline (spec section 4.3). -/
def needsQuoting (s : String) : Bool :=
  s.toList.any (fun c => c = ',' || c = '"' || c = '\n' || c = '\r')

/-- Double every quote inside a field body (spec section 4.3). -/
def escapeQuotes (s : String) : String :=
  String.join (s.toList.map (fun c => if c = '"' then "\"\"" else String.singleton c))

/-- Quote a CSV field when needed, doubling inner quotes. -/
def quoteField (s : String) : String :=
  if needsQuoting s then "\"" ++ escapeQuotes s ++ "\"" else s

/-- Render one CSV row: fields quoted as needed and joined by commas. -/
def renderRow (r : List String) : String :=
  String.intercalate "," (r.map quoteField)

/-- Modelled from the spec: render the rows as RFC4180-style text with a
single consistent line ending — LF after every row, the final row
included, with no trailing blank line beyond it (spec section 4.3). -/
def renderCsv (rows : List (List String)) : String :=
  String.join (rows.map (fun r => renderRow r ++ "\n"))

/-! JSON parsing. The spec (section 6) assumes no schema beyond "valid
JSON": the parser below follows the standard JSON grammar, with a fuel
argument standing in for the recursion on the remaining input. -/

/-- Skip JSON insignificant whitespace. -/
def skipWs : List Char → List Char
  | c :: rest =>
      if c = ' ' || c = '\t' || c = '\n' || c = '\r' then skipWs rest else c :: rest
  | [] => []

/-- An ASCII decimal digit. -/
def isDigit (c : Char) : Bool :=
  48 ≤ c.toNat && c.toNat ≤ 57

/-- The value of a hexadecimal digit, if it is one. -/
def hexVal (c : Char) : Option Nat :=
  if 48 ≤ c.toNat && c.toNat ≤ 57 then some (c.toNat - 48)
  else if 97 ≤ c.toNat && c.toNat ≤ 102 then some (c.toNat - 97 + 10)
  else if 65 ≤ c.toNat && c.toNat ≤ 70 then some (c.toNat - 65 + 10)
  else none

/-- Split off the longest leading run of decimal digits. -/
def takeDigits : List Char → (List Char × List Char)
  | [] => ([], [])
  | c :: rest =>
      if isDigit c then
        let (ds, r) := takeDigits rest
        (c :: ds, r)
      else ([], c :: rest)

/-- The resolved character of a single-character JSON escape. -/
def escChar (e : Char) : Option Char :=
  if e = '"' then some '"'
  else if e = '\\' then some '\\'
  else if e = '/' then some '/'
  else if e = 'b' then some (Char.ofNat 8)
  else if e = 'f' then some (Char.ofNat 12)
  else if e = 'n' then some '\n'
  else if e = 'r' then some '\r'
  else if e = 't' then some '\t'
  else none

/-- Parse the body of a JSON string after its opening quote, resolving
escapes, up to and past the closing quote. -/
def parseStringBody : Nat → List Char → Option (String × List Char)
  | 0, _ => none
  | _, [] => none
  | fuel + 1, c :: rest =>
      if c = '"' then some ("", rest)
      else if c = '\\' then
        match rest with
        | [] => none
        | e :: rest2 =>
            if e = 'u' then
              match rest2 with
              | h1 :: h2 :: h3 :: h4 :: rest3 =>
                  match hexVal h1, hexVal h2, hexVal h3, hexVal h4 with
                  | some a, some b, some c2, some d => do
                      let (s, r) ← parseStringBody fuel rest3
                      some (String.singleton (Char.ofNat (a * 4096 + b * 256 + c2 * 16 + d)) ++ s, r)
                  | _, _, _, _ => none
              | _ => none
            else
              match escChar e with
              | some ch => do
                  let (s, r) ← parseStringBody fuel rest2
                  some (String.singleton ch ++ s, r)
              | none => none
      else do
        let (s, r) ← parseStringBody fuel rest
        some (String.singleton c ++ s, r)

/-- Parse an optional JSON fraction part, as text. -/
def parseFracPart : List Char → Option (String × List Char)
  | '.' :: r =>
      let (ds, r2) := takeDigits r
      if ds.isEmpty then none else some ("." ++ String.mk ds, r2)
  | cs => some ("", cs)

/-- Parse an optional JSON exponent part, as text. -/
def parseExpPart : List Char → Option (String × List Char)
  | c :: r =>
      if c = 'e' || c = 'E' then
        let (sgn, r1) := match r with
          | s :: r2 => if s = '+' || s = '-' then (String.singleton s, r2) else (("" : String), s :: r2)
          | [] => (("" : String), ([] : List Char))
        let (ds, r2) := takeDigits r1
        if ds.isEmpty then none else some (String.singleton c ++ sgn ++ String.mk ds, r2)
      else some ("", c :: r)
  | [] => some ("", [])

/-- Parse a JSON number, keeping its source spelling. -/
def parseNumber (cs : List Char) : Option (String × List Char) := do
  let (neg, cs1) := match cs with
    | '-' :: r => (("-" : String), r)
    | _ => (("" : String), cs)
  let (ip, cs2) := takeDigits cs1
  if ip.isEmpty then none
  else do
    let (fr, cs3) ← parseFracPart cs2
    let (ex, cs4) ← parseExpPart cs3
    some (neg ++ String.mk ip ++ fr ++ ex, cs4)

mutual

/-- Parse one JSON value from the input, skipping leading whitespace. -/
def parseValue : Nat → List Char → Option (Json × List Char)
  | 0, _ => none
  | fuel + 1, cs =>
      match skipWs cs with
      | [] => none
      | c :: rest =>
          if c = '"' then do
            let (s, r) ← parseStringBody (rest.length + 1) rest
            some (Json.str s, r)
          else if c = '-' || isDigit c then do
            let (s, r) ← parseNumber (c :: rest)
            some (Json.num s, r)
          else if c = 't' then
            match rest with
            | 'r' :: 'u' :: 'e' :: r => some (Json.bool true, r)
            | _ => none
          else if c = 'f' then
            match rest with
            | 'a' :: 'l' :: 's' :: 'e' :: r => some (Json.bool false, r)
            | _ => none
          else if c = 'n' then
            match rest with
            | 'u' :: 'l' :: 'l' :: r => some (Json.null, r)
            | _ => none
          else if c = '[' then
            match skipWs rest with
            | ']' :: r => some (Json.arr [], r)
            | cs2 => do
                let (xs, r) ← parseElems fuel cs2
                some (Json.arr xs, r)
          else if c.toNat = 123 then
            match skipWs rest with
            | c2 :: r => if c2.toNat = 125 then some (Json.obj [], r) else do
                let (fs, r2) ← parseMembers fuel (c2 :: r)
                some (Json.obj fs, r2)
            | [] => none
          else none

/-- Parse the comma-separated elements of a JSON array, up to and past
the closing bracket. -/
def parseElems : Nat → List Char → Option (List Json × List Char)
  | 0, _ => none
  | fuel + 1, cs => do
      let (v, r) ← parseValue fuel cs
      match skipWs r with
      | ',' :: r2 => do
          let (vs, r3) ← parseElems fuel r2
          some (v :: vs, r3)
      | ']' :: r2 => some ([v], r2)
      | _ => none

/-- Parse the comma-separated members of a JSON object, up to and past
the closing brace. -/
def parseMembers : Nat → List Char → Option (List (String × Json) × List Char)
  | 0, _ => none
  | fuel + 1, cs =>
      match skipWs cs with
      | '"' :: rest => do
          let (k, r) ← parseStringBody (rest.length + 1) rest
          match skipWs r with
          | ':' :: r2 => do
              let (v, r3) ← parseValue fuel r2
              match skipWs r3 with
              | ',' :: r4 => do
                  let (fs, r5) ← parseMembers fuel r4
                  some ((k, v) :: fs, r5)
              | c :: r4 =>
                  if c.toNat = 125 then some ([(k, v)], r4) else none
              | [] => none
          | _ => none
      | _ => none

end

/-- Modelled from the spec: decode the input text as JSON (spec
section 6 assumes nothing beyond validity); trailing garbage after the
single top-level value is also invalid. -/
def parseJson (s : String) : Option Json :=
  match parseValue (2 * s.length + 2) s.toList with
  | some (j, rest) => if (skipWs rest).isEmpty then some j else none
  | none => none

/-- The classifier-plus-flattener-plus-renderer on a decoded value. -/
def jsonToCsvCore (j : Json) : Except ConvError String := do
  let rows ← csvRows j
  .ok (renderCsv rows)

/-- Modelled from the spec: the whole transformer `json_to_csv`
(`mcp_massive.formatters` is not in the sources). Invalid JSON fails with
`ParseError`; a valid document is classified, flattened and rendered,
failing with `ShapeError` on non-tabular shapes (spec sections 4 and 7). -/
def json_to_csv (input : String) : Except ConvError String :=
  match parseJson input with
  | none => .error (.parseError "invalid JSON")
  | some j => jsonToCsvCore j

/-! The server module (`src/mcp_massive/server.py`). Every tool coroutine
wraps its whole body in `try: … except Exception as e: return f"Error: 〈e〉"`,
with the body being the upstream client call, the UTF-8 decode of the
response bytes, and `json_to_csv`. The two external stages are
parameters; a Python exception is modelled by its message string. -/

/-- The shared tool body of all 53 tool coroutines in `server.py`
(e.g. `get_aggs`, lines 47–64, and `get_futures_snapshot`, lines
1955–1977): run the upstream client call, decode its bytes as UTF-8,
convert with `json_to_csv`; any exception at any stage is caught and
rendered as the string `Error: ` followed by the exception message. -/
def runToolOperation (clientCall : Except String (List Nat))
    (decodeUtf8 : List Nat → Except String String) : String :=
  match clientCall with
  | .error e => "Error: " ++ e
  | .ok data =>
      match decodeUtf8 data with
      | .error e => "Error: " ++ e
      | .ok s =>
          match json_to_csv s with
          | .error err => "Error: " ++ err.message
          | .ok csv => csv

/-- The parameters of the `list_treasury_yields` tool (`server.py`
lines 875–886): note that `date_any_of` is declared in the signature. -/
structure TreasuryYieldsArgs where
  date : Option String
  date_any_of : Option String
  date_lt : Option String
  date_lte : Option String
  date_gt : Option String
  date_gte : Option String
  limit : Option Int
  sort : Option String
  order : Option String
  params : Option (List (String × String))

/-- The arguments `list_treasury_yields` passes to
`massive_client.list_treasury_yields` (`server.py` lines 891–902):
`date_any_of` is absent from the call. -/
structure TreasuryYieldsClientCall where
  date : Option String
  date_lt : Option String
  date_lte : Option String
  date_gt : Option String
  date_gte : Option String
  limit : Option Int
  sort : Option String
  order : Option String
  params : Option (List (String × String))
deriving Repr

/-- The argument marshalling of `list_treasury_yields` (`server.py`
lines 891–902), field for field as written in the source. -/
def list_treasury_yields_call (a : TreasuryYieldsArgs) : TreasuryYieldsClientCall :=
  { date := a.date
    date_lt := a.date_lt
    date_lte := a.date_lte
    date_gt := a.date_gt
    date_gte := a.date_gte
    limit := a.limit
    sort := a.sort
    order := a.order
    params := a.params }

/-- The `list_treasury_yields` tool end to end: marshal the arguments,
invoke the upstream client on them, and wrap as every tool does. -/
def list_treasury_yields_tool (a : TreasuryYieldsArgs)
    (upstream : TreasuryYieldsClientCall → Except String (List Nat))
    (decodeUtf8 : List Nat → Except String String) : String :=
  runToolOperation (upstream (list_treasury_yields_call a)) decodeUtf8

/-- The parameters of the `list_inflation` tool (`server.py`
lines 910–919). -/
structure InflationArgs where
  date : Option String
  date_any_of : Option String
  date_gt : Option String
  date_gte : Option String
  date_lt : Option String
  date_lte : Option String
  limit : Option Int
  sort : Option String
  params : Option (List (String × String))

/-- The arguments `list_inflation` passes to
`massive_client.list_inflation` (`server.py` lines 925–935):
`date_any_of` is forwarded. -/
structure InflationClientCall where
  date : Option String
  date_any_of : Option String
  date_gt : Option String
  date_gte : Option String
  date_lt : Option String
  date_lte : Option String
  limit : Option Int
  sort : Option String
  params : Option (List (String × String))
deriving Repr

/-- The argument marshalling of `list_inflation` (`server.py`
lines 925–935), field for field as written in the source. -/
def list_inflation_call (a : InflationArgs) : InflationClientCall :=
  { date := a.date
    date_any_of := a.date_any_of
    date_gt := a.date_gt
    date_gte := a.date_gte
    date_lt := a.date_lt
    date_lte := a.date_lte
    limit := a.limit
    sort := a.sort
    params := a.params }

/-- The 32 tools of `server.py` that declare a `limit` parameter with a
default and forward it to the upstream client call. -/
inductive LimitTool where
  | get_aggs
  | list_aggs
  | list_trades
  | list_quotes
  | list_universal_snapshots
  | list_tickers
  | list_ticker_news
  | list_splits
  | list_dividends
  | list_stock_financials
  | list_ipos
  | list_short_interest
  | list_short_volume
  | list_treasury_yields
  | list_inflation
  | list_benzinga_analyst_insights
  | list_benzinga_analysts
  | list_benzinga_consensus_ratings
  | list_benzinga_earnings
  | list_benzinga_firms
  | list_benzinga_guidance
  | list_benzinga_news
  | list_benzinga_ratings
  | list_futures_aggregates
  | list_futures_contracts
  | list_futures_products
  | list_futures_quotes
  | list_futures_trades
  | list_futures_schedules
  | list_futures_schedules_by_product_code
  | list_futures_market_statuses
  | get_futures_snapshot
deriving DecidableEq, Repr

/-- The declared default of each tool's `limit` parameter, read off the
signatures in `server.py` (lines 41, 76, 176, 245, 339, 512, 564, 612,
639, 725, 773, 810, 846, 882, 917, 987, 1075, 1127, 1207, 1289, 1359,
1429, 1530, 1613, 1648, 1707, 1773, 1817, 1852, 1882, 1912, 1948). -/
def signatureLimitDefault : LimitTool → Option Int
  | .get_aggs => some 10
  | .list_aggs => some 10
  | .list_trades => some 10
  | .list_quotes => some 10
  | .list_universal_snapshots => some 10
  | .list_tickers => some 10
  | .list_ticker_news => some 10
  | .list_splits => some 10
  | .list_dividends => some 10
  | .list_stock_financials => some 10
  | .list_ipos => some 10
  | .list_short_interest => some 10
  | .list_short_volume => some 10
  | .list_treasury_yields => some 10
  | .list_inflation => some 10
  | .list_benzinga_analyst_insights => some 10
  | .list_benzinga_analysts => some 10
  | .list_benzinga_consensus_ratings => some 10
  | .list_benzinga_earnings => some 10
  | .list_benzinga_firms => some 10
  | .list_benzinga_guidance => some 10
  | .list_benzinga_news => some 100
  | .list_benzinga_ratings => some 10
  | .list_futures_aggregates => some 10
  | .list_futures_contracts => some 10
  | .list_futures_products => some 10
  | .list_futures_quotes => some 10
  | .list_futures_trades => some 10
  | .list_futures_schedules => some 10
  | .list_futures_schedules_by_product_code => some 10
  | .list_futures_market_statuses => some 10
  | .get_futures_snapshot => some 10

/-- The `limit` value a tool passes to the upstream client (every one of
the 32 tools writes `limit=limit` in its client call): the caller's value
when the caller supplied one, otherwise the signature default — Python
default-argument semantics. -/
def forwardedLimit (t : LimitTool) (callerLimit : Option (Option Int)) : Option Int :=
  match callerLimit with
  | some v => v
  | none => signatureLimitDefault t

deriving instance DecidableEq for Except

/-! Helper lemmas shared by the claim theorems. -/

/-- Binding a successful `Except` computation applies the continuation. -/
theorem ebind_ok {α β : Type} (a : α) (f : α → Except ConvError β) :
    (Except.ok a >>= f : Except ConvError β) = f a := rfl

/-- Binding a failed `Except` computation keeps the error. -/
theorem ebind_err {α β : Type} (e : ConvError) (f : α → Except ConvError β) :
    (Except.error e >>= f : Except ConvError β) = Except.error e := rfl

/-- `json_to_csv` either fails, or succeeds with the render of the header
row followed by one data row per record. -/
theorem json_to_csv_cases (s : String) :
    (∃ e, json_to_csv s = .error e) ∨
    (∃ j cellss, parseJson s = some j ∧ recordCells j = .ok cellss ∧
      json_to_csv s =
        .ok (renderCsv (columnSet cellss :: cellss.map (rowFor (columnSet cellss))))) := by
  cases hp : parseJson s with
  | none => exact .inl ⟨ConvError.parseError "invalid JSON", by simp [json_to_csv, hp]⟩
  | some j =>
    cases hr : recordCells j with
    | error e =>
      exact .inl ⟨e, by simp [json_to_csv, hp, jsonToCsvCore, csvRows, hr, ebind_err]⟩
    | ok cellss =>
      exact .inr ⟨j, cellss, rfl, hr,
        by simp [json_to_csv, hp, jsonToCsvCore, csvRows, hr, ebind_ok]⟩

/-- Every row of a rendered table — the header and each data row — has
exactly as many fields as the Column Set has columns. -/
theorem row_widths (cols : List String) (cellss : List (List (String × String))) :
    ∀ r ∈ cols :: cellss.map (rowFor cols), r.length = cols.length := by
  intro r hr
  rcases List.mem_cons.mp hr with h | h
  · rw [h]
  · obtain ⟨cells, _, rfl⟩ := List.mem_map.mp h
    simp [rowFor]

/-- A value that is not an object fails the record check with the
non-object-element shape error. -/
theorem recordFields_of_not_obj (x : Json) (h : x.isObj = false) :
    recordFields x = .error (.shapeError "non-object element in record sequence") := by
  cases x <;> simp [Json.isObj] at h ⊢ <;> rfl

/-- A record sequence containing a non-object element fails with the
non-object-element shape error. -/
theorem mapRecords_error (xs : List Json) (h : ∃ x ∈ xs, x.isObj = false) :
    mapRecords xs = .error (.shapeError "non-object element in record sequence") := by
  induction xs with
  | nil => obtain ⟨x, hx, _⟩ := h; exact absurd hx (List.not_mem_nil x)
  | cons x rest ih =>
    cases hx : x.isObj with
    | false => simp [mapRecords, recordFields_of_not_obj x hx, ebind_err]
    | true =>
      obtain ⟨y, hy, hyo⟩ := h
      rcases List.mem_cons.mp hy with rfl | hy2
      · rw [hx] at hyo; exact absurd hyo (by simp)
      · cases x with
        | obj fs => simp [mapRecords, recordFields, ebind_ok, ih ⟨y, hy2, hyo⟩, ebind_err]
        | null => simp [Json.isObj] at hx
        | bool b => simp [Json.isObj] at hx
        | num s => simp [Json.isObj] at hx
        | str s => simp [Json.isObj] at hx
        | arr ys => simp [Json.isObj] at hx

/-- A scalar or null top-level value fails classification with the
no-tabular-structure shape error. -/
theorem extractRecords_scalar (j : Json) (h : j.isScalar = true) :
    extractRecords j = .error (.shapeError "no tabular structure in response") := by
  cases j <;> simp [Json.isScalar] at h ⊢ <;> rfl

/-- `jsonToCsvCore` propagates a classification failure unchanged. -/
theorem jsonToCsvCore_of_extract_error (j : Json) (e : ConvError)
    (h : extractRecords j = .error e) : jsonToCsvCore j = .error e := by
  simp [jsonToCsvCore, csvRows, recordCells, h, ebind_err]

/-! The claim theorems. -/

/-- C1: every tool operation of the gateway catches every exception
raised by the upstream client call, the UTF-8 decode of the response
bytes, or the `json_to_csv` conversion, returning the plain string
`Error: ` followed by the exception's message and never propagating the
exception; when no exception occurs it returns the string produced by
`json_to_csv`. -/
theorem tool_error_wrapping (c : Except String (List Nat))
    (d : List Nat → Except String String) :
    (∀ e, c = .error e → runToolOperation c d = "Error: " ++ e) ∧
    (∀ data e, c = .ok data → d data = .error e →
      runToolOperation c d = "Error: " ++ e) ∧
    (∀ data s err, c = .ok data → d data = .ok s → json_to_csv s = .error err →
      runToolOperation c d = "Error: " ++ err.message) ∧
    (∀ data s csv, c = .ok data → d data = .ok s → json_to_csv s = .ok csv →
      runToolOperation c d = csv) := by
  refine ⟨?_, ?_, ?_, ?_⟩
  · intro e hc; subst hc; rfl
  · intro data e hc hd; subst hc; simp [runToolOperation, hd]
  · intro data s err hc hd hj; subst hc; simp [runToolOperation, hd, hj]
  · intro data s csv hc hd hj; subst hc; simp [runToolOperation, hd, hj]

/-- Witness for C1 at a concrete failing upstream call. -/
theorem tool_error_wrapping_witness :
    runToolOperation (.error "upstream failure") (fun _ => .ok "") =
      "Error: upstream failure" :=
  (tool_error_wrapping (.error "upstream failure") (fun _ => .ok "")).1
    "upstream failure" rfl

/-- C3: `json_to_csv` is pure and deterministic — byte-identical inputs
produce identical results, with no hidden state between calls (the
embedding is a function of the input string alone). -/
theorem json_to_csv_deterministic (s₁ s₂ : String) (h : s₁ = s₂) :
    json_to_csv s₁ = json_to_csv s₂ := by rw [h]

/-- Witness for C3 at a concrete input. -/
theorem json_to_csv_deterministic_witness :
    json_to_csv "[]" = json_to_csv "[]" :=
  json_to_csv_deterministic "[]" "[]" rfl

/-- C2: on every JSON input on which `json_to_csv` succeeds, the output
is the render of rows in which every row — the header included — has
exactly as many fields as the Column Set (the ordered union of all
flattened field paths across all records) has columns. -/
theorem row_width_invariant (s csv : String) (h : json_to_csv s = .ok csv) :
    ∃ j cellss, parseJson s = some j ∧ recordCells j = .ok cellss ∧
      csv = renderCsv (columnSet cellss :: cellss.map (rowFor (columnSet cellss))) ∧
      ∀ r ∈ columnSet cellss :: cellss.map (rowFor (columnSet cellss)),
        r.length = (columnSet cellss).length := by
  rcases json_to_csv_cases s with ⟨e, he⟩ | ⟨j, cellss, hp, hr, hok⟩
  · rw [h] at he; exact absurd he (by simp)
  · rw [h] at hok
    exact ⟨j, cellss, hp, hr, (Except.ok.injEq _ _).mp hok.symm |>.symm,
      row_widths _ _⟩

/-- Witness for C2 at a concrete successful conversion. -/
theorem row_width_invariant_witness :
    ∃ j cellss, parseJson "[\x7b\"a\":1\x7d]" = some j ∧ recordCells j = .ok cellss ∧
      "a\n1\n" = renderCsv (columnSet cellss :: cellss.map (rowFor (columnSet cellss))) ∧
      ∀ r ∈ columnSet cellss :: cellss.map (rowFor (columnSet cellss)),
        r.length = (columnSet cellss).length :=
  row_width_invariant "[\x7b\"a\":1\x7d]" "a\n1\n" (by decide)

/-- C4: the envelope classifier fails with `ShapeError` exactly as the
spec says on non-tabular inputs — a top-level scalar or null fails with
the no-tabular-structure shape error, and a top-level sequence with a
non-object element fails with the non-object-element shape error; in
both cases the result is an error, so no CSV text is produced. -/
theorem shape_error_on_non_tabular :
    (∀ s j, parseJson s = some j → j.isScalar = true →
      json_to_csv s = .error (.shapeError "no tabular structure in response")) ∧
    (∀ s xs, parseJson s = some (Json.arr xs) → (∃ x ∈ xs, x.isObj = false) →
      json_to_csv s = .error (.shapeError "non-object element in record sequence")) := by
  constructor
  · intro s j hp hs
    simp [json_to_csv, hp,
      jsonToCsvCore_of_extract_error j _ (extractRecords_scalar j hs)]
  · intro s xs hp hx
    have hex : extractRecords (Json.arr xs) =
        .error (.shapeError "non-object element in record sequence") := by
      simpa [extractRecords] using mapRecords_error xs hx
    simp [json_to_csv, hp, jsonToCsvCore_of_extract_error _ _ hex]

/-- Witness for C4: the scalar input `3` and the sequence input `[3]`. -/
theorem shape_error_on_non_tabular_witness :
    json_to_csv "3" = .error (.shapeError "no tabular structure in response") ∧
    json_to_csv "[3]" = .error (.shapeError "non-object element in record sequence") :=
  ⟨shape_error_on_non_tabular.1 "3" (Json.num "3") rfl rfl,
   shape_error_on_non_tabular.2 "[3]" [Json.num "3"] rfl
     ⟨Json.num "3", by simp, rfl⟩⟩

/-- C5: `json_to_csv` never produces partial output — for every input it
either fails with an error (which is a `ParseError` or a `ShapeError`, no
CSV text at all) or returns the complete render of the header row and
every record's row; there is no hybrid best-effort output. -/
theorem no_partial_output (s : String) :
    (∃ e, json_to_csv s = .error e ∧
      ((∃ m, e = ConvError.parseError m) ∨ (∃ m, e = ConvError.shapeError m))) ∨
    (∃ cellss, json_to_csv s =
      .ok (renderCsv (columnSet cellss :: cellss.map (rowFor (columnSet cellss))))) := by
  rcases json_to_csv_cases s with ⟨e, he⟩ | ⟨j, cellss, _, _, hok⟩
  · refine .inl ⟨e, he, ?_⟩
    cases e with
    | parseError m => exact .inl ⟨m, rfl⟩
    | shapeError m => exact .inr ⟨m, rfl⟩
  · exact .inr ⟨cellss, hok⟩

/-- C6: sparse records are tolerated — the exact input
`[{"a":1},{"a":1,"b":2}]` succeeds with header `a,b` and data rows `1,`
and `1,2`, and in general a record lacking a column of the header renders
the empty string for that cell. -/
theorem sparse_field_tolerance :
    json_to_csv "[\x7b\"a\":1\x7d,\x7b\"a\":1,\"b\":2\x7d]" = .ok "a,b\n1,\n1,2\n" ∧
    ∀ cells c, cells.lookup c = none → lookupCell cells c = "" := by
  refine ⟨by decide, ?_⟩
  intro cells c h
  simp [lookupCell, h]

/-- Witness for C6: a record with no cells renders the empty string at
any column. -/
theorem sparse_field_tolerance_witness : lookupCell [] "a" = "" :=
  sparse_field_tolerance.2 [] "a" rfl

/-- C7: nested objects flatten into dotted column paths — the exact
input `[{"a":{"b":1,"c":2}}]` yields header `a.b,a.c` and the single data
row `1,2`, and the Column Set of that document is exactly
`[a.b, a.c]`, so the parent key `a` itself is not registered. -/
theorem nested_flattening :
    json_to_csv "[\x7b\"a\":\x7b\"b\":1,\"c\":2\x7d\x7d]" = .ok "a.b,a.c\n1,2\n" ∧
    csvColumns (Json.arr [Json.obj [("a", Json.obj [("b", Json.num "1"), ("c", Json.num "2")])]])
      = .ok ["a.b", "a.c"] :=
  ⟨by decide, by decide⟩

/-- C8: the header row is produced exactly once and first — for every
document whose records flatten successfully the row list is the Column
Set followed by one data row per record — and the empty record list
(`{"results":[]}`) produces the stable header-only representation with an
empty Column Set, rendered as a single empty line. -/
theorem header_first_even_when_empty :
    (∀ j cellss, recordCells j = .ok cellss →
      csvRows j = .ok (columnSet cellss :: cellss.map (rowFor (columnSet cellss)))) ∧
    json_to_csv "\x7b\"results\":[]\x7d" = .ok "\n" := by
  refine ⟨?_, by decide⟩
  intro j cellss h
  simp [csvRows, h, ebind_ok]

/-- Witness for C8 at the empty collection envelope. -/
theorem header_first_even_when_empty_witness :
    csvRows (Json.obj [("results", Json.arr [])]) = .ok [[]] :=
  header_first_even_when_empty.1 (Json.obj [("results", Json.arr [])]) [] (by decide)

/-- C9: the `date_any_of` parameter of `list_treasury_yields` is accepted
but never forwarded — two invocations differing only in `date_any_of`
marshal identical upstream client arguments and (for the same upstream
response) return identical strings — while `list_inflation` does forward
its `date_any_of` parameter. -/
theorem treasury_date_any_of_not_forwarded :
    (∀ (a : TreasuryYieldsArgs) (v : Option String),
      list_treasury_yields_call { a with date_any_of := v } =
        list_treasury_yields_call a) ∧
    (∀ (a : TreasuryYieldsArgs) (v : Option String)
      (upstream : TreasuryYieldsClientCall → Except String (List Nat))
      (decodeUtf8 : List Nat → Except String String),
      list_treasury_yields_tool { a with date_any_of := v } upstream decodeUtf8 =
        list_treasury_yields_tool a upstream decodeUtf8) ∧
    (∀ (a : InflationArgs) (v : Option String),
      (list_inflation_call { a with date_any_of := v }).date_any_of = v) :=
  ⟨fun _ _ => rfl, fun _ _ _ _ => rfl, fun _ _ => rfl⟩

/-- C10: when the caller omits `limit`, every limit-bearing tool forwards
the explicit default 10 to the upstream client, except
`list_benzinga_news`, which forwards 100; the forwarded value is always
present (never left to the upstream API). -/
theorem default_limit_ten_except_benzinga_news :
    (∀ t : LimitTool, t ≠ .list_benzinga_news → forwardedLimit t none = some 10) ∧
    forwardedLimit .list_benzinga_news none = some 100 ∧
    ∀ t : LimitTool, (forwardedLimit t none).isSome = true := by
  refine ⟨?_, rfl, ?_⟩
  · intro t ht
    cases t <;> first | rfl | exact absurd rfl ht
  · intro t
    cases t <;> rfl

/-- Witness for C10 at `get_aggs`. -/
theorem default_limit_ten_except_benzinga_news_witness :
    forwardedLimit .get_aggs none = some 10 :=
  default_limit_ten_except_benzinga_news.1 .get_aggs (by decide)

end McpMassive
